import Mathlib

/-!
Shallow embedding of `src/lib/commands/general.js` of the
appium-xcuitest-driver repository slice: the backgrounding policy
resolver (`background`), the device-time normalizer (`getDeviceTime`,
`mobileGetDeviceTime`), the viewport geometry calculator
(`getViewportRect`), the window-rect command (`getWindowRect`) and the
argument validators (`mobilePressButton`, `mobileSiriCommand`).

JavaScript numbers are embedded as `ℚ` with an explicit `nan` constructor
for NaN (none of the claims depend on binary floating-point rounding, and
the arithmetic performed by the code — division by 1000, by 60,
multiplication by a scale, `Math.round` — is exact on the inputs of
interest).  External collaborators (the remote proxy, the `moment`
formatting library, the local `date` subprocess) are passed in explicitly
as data or function parameters, following the dependency-injection reading
of the source (`this.proxyCommand`, `exec`, `moment`).
-/

namespace XCUITest

/-- JavaScript runtime values that can reach the commands under scrutiny:
`undefined`, `null`, `NaN`, finite numbers, strings, booleans, and plain
objects carrying an optional `timeout` property (the only property the
source ever reads, via `_.has(seconds, 'timeout')` / `seconds.timeout`):
`objTimeout t` is an object whose `timeout` property holds `t`, `objEmpty`
an object without that property. -/
inductive JSValue where
  | undefined
  | null
  | nan
  | num (q : ℚ)
  | str (s : String)
  | bool (b : Bool)
  | objEmpty
  | objTimeout (t : JSValue)
deriving DecidableEq, Repr

/-- Numeric value of a list of decimal digit characters. -/
def digitsVal (l : List Char) : ℕ :=
  l.foldl (fun a c => 10 * a + (c.toNat - '0'.toNat)) 0

/-- Rational value of a parsed decimal literal: integer part digits,
fraction digits, and a sign. -/
def decimalRat (ip fp : List Char) (neg : Bool) : ℚ :=
  let v : ℚ := (digitsVal ip : ℚ) + (digitsVal fp : ℚ) / (10 : ℚ) ^ fp.length
  if neg then -v else v

/-- Parse an optional leading sign. Returns (isNegative, rest). -/
def parseSign : List Char → Bool × List Char
  | '-' :: rest => (true, rest)
  | '+' :: rest => (false, rest)
  | l => (false, l)

/-- Parse a decimal number `[sign] digits [. digits]` at the head of the
list, returning its value and the unconsumed suffix, or `none` when no
digits are present.  This models the plain-decimal subset of JavaScript
numeric syntax (no exponent, hex, or Infinity forms — none of which occur
in the inputs the source's documentation describes). -/
def parseDecCore (l : List Char) : Option (ℚ × List Char) :=
  let sr := parseSign l
  let ir := sr.2.span Char.isDigit
  match ir.2 with
  | '.' :: r2 =>
    let fr := r2.span Char.isDigit
    if ir.1.isEmpty && fr.1.isEmpty then none
    else some (decimalRat ir.1 fr.1 sr.1, fr.2)
  | r1 => if ir.1.isEmpty then none else some (decimalRat ir.1 [] sr.1, r1)

/-- Strip leading and trailing whitespace from a character list. -/
def trimList (l : List Char) : List Char :=
  ((l.dropWhile Char.isWhitespace).reverse.dropWhile Char.isWhitespace).reverse

/-- JavaScript `s.trim()`: strip whitespace from both ends. -/
def jsTrim (s : String) : String :=
  ⟨trimList s.data⟩

/-- JavaScript `parseFloat(s)`: skip leading whitespace, parse the longest
numeric prefix; NaN (here `none`) when no prefix parses. -/
def parseFloatStr (s : String) : Option ℚ :=
  (parseDecCore (s.data.dropWhile Char.isWhitespace)).map (·.1)

/-- JavaScript `Number(s)` on a string: whitespace-trimmed empty string is
`0`; otherwise the whole trimmed string must be a numeric literal, else
NaN (`none`). -/
def strToNumber (s : String) : Option ℚ :=
  let l := trimList s.data
  if l.isEmpty then some 0
  else
    match parseDecCore l with
    | some (q, []) => some q
    | _ => none

/-- `util.hasValue(v)` from appium support: `!_.isUndefined(v) && !_.isNull(v)`. -/
def hasValue : JSValue → Bool
  | .undefined => false
  | .null => false
  | _ => true

/-- `_.isNil(v)`: true exactly on `undefined` and `null`. -/
def isNil (v : JSValue) : Bool := !hasValue v

/-- JavaScript truthiness of a value. -/
def truthy : JSValue → Bool
  | .undefined => false
  | .null => false
  | .nan => false
  | .num q => q != 0
  | .str s => s != ""
  | .bool b => b
  | .objEmpty => true
  | .objTimeout _ => true

/-- `_.isNumber(v)`: `typeof v === 'number'` — true for finite numbers and NaN. -/
def isNumber : JSValue → Bool
  | .num _ => true
  | .nan => true
  | _ => false

/-- `_.has(v, 'timeout')`: key presence; only plain objects that carry the
`timeout` property qualify (lodash `has` is false on primitives here). -/
def hasTimeoutKey : JSValue → Bool
  | .objTimeout _ => true
  | _ => false

/-- `v.timeout` for an object carrying the key; property access on the
other shapes the dispatcher guard already excludes. -/
def timeoutField : JSValue → JSValue
  | .objTimeout t => t
  | _ => .undefined

/-- JavaScript `Number(v)` coercion; `none` is NaN.  Plain objects coerce
through `"[object Object]"` to NaN. -/
def jsToNumber : JSValue → Option ℚ
  | .undefined => none
  | .null => some 0
  | .nan => none
  | .num q => some q
  | .str s => strToNumber s
  | .bool b => some (if b then 1 else 0)
  | .objEmpty => none
  | .objTimeout _ => none

/-- `parseFloat(String(v))`: stringify then parse a float prefix; `none` is
NaN.  For a finite number the JavaScript decimal rendering round-trips
through `parseFloat` to the same value; `String(null) = "null"`,
`String(undefined) = "undefined"`, `String(true) = "true"` and
`String({}) = "[object Object]"` all parse to NaN. -/
def parseFloatVal : JSValue → Option ℚ
  | .num q => some q
  | .str s => parseFloatStr s
  | _ => none

/-- The two WebDriverAgent endpoints `background` can select
(`/wda/homescreen` and `/wda/deactivateApp`). -/
inductive Endpoint where
  | homescreen
  | deactivateApp
deriving DecidableEq, Repr

/-- `selectEndpoint` closure from `background` (general.js lines 39-51):
absent timeout picks the home screen; a Number-coercible timeout takes
`duration = parseFloat(timeoutSeconds)` and picks `/wda/deactivateApp`
when `duration >= 0` (NaN compares false, falling to the home screen),
otherwise the home screen; a present non-coercible timeout leaves the
endpoint unset (`none`). The second component is the `params.duration`
payload (`none` for the empty `params`). -/
def selectEndpoint (timeoutSeconds : JSValue) : Option (Endpoint × Option ℚ) :=
  if !hasValue timeoutSeconds then
    some (.homescreen, none)
  else if (jsToNumber timeoutSeconds).isSome then
    match parseFloatVal timeoutSeconds with
    | some duration =>
      if 0 ≤ duration then some (.deactivateApp, some duration)
      else some (.homescreen, none)
    | none => some (.homescreen, none)
  else none

/-- The value `background` passes to `selectEndpoint` (general.js lines
52-57): when `seconds` is a truthy non-number with a `timeout` key, the
argument is `isNaN(Number(timeout)) ? timeout : parseFloat(String(timeout)) / 1000.0`
(a NaN quotient is the `nan` value); otherwise the raw `seconds`. -/
def candidate (seconds : JSValue) : JSValue :=
  if truthy seconds && !isNumber seconds && hasTimeoutKey seconds then
    let timeout := timeoutField seconds
    if (jsToNumber timeout).isNone then timeout
    else
      match parseFloatVal timeout with
      | some v => .num (v / 1000)
      | none => .nan
  else seconds

/-- `background(seconds)` (general.js lines 33-65) up to the proxy call:
resolve the endpoint and parameters, or raise `InvalidArgumentError`
(modelled as `Except.error` carrying the raw argument the message
stringifies) when no endpoint was determined. -/
def background (seconds : JSValue) : Except JSValue (Endpoint × Option ℚ) :=
  match selectEndpoint (candidate seconds) with
  | some r => .ok r
  | none => .error seconds

/-- The default datetime format shared by `getDeviceTime` and
`mobileGetDeviceTime` (`MOMENT_FORMAT_ISO8601` in general.js line 8). -/
def MOMENT_FORMAT_ISO8601 : String := "YYYY-MM-DDTHH:mm:ssZ"

/-- The reading `utilities.getDeviceTime(udid)` hands to the physical-device
path of `getDeviceTime` (general.js line 135): an epoch timestamp, a signed
`utcOffset` number, and a `timeZone` that may be a zone-name string or an
offset number (the firmware inconsistency the cascade disambiguates). -/
structure DeviceTimeReading where
  timestamp : ℤ
  utcOffset : ℚ
  timeZone : JSValue
deriving DecidableEq, Repr

/-- `_.includes(timeZone, '/')`: substring membership on a string; `false`
on numbers and the other non-collection shapes. -/
def includesSlash : JSValue → Bool
  | .str s => s.data.contains '/'
  | _ => false

/-- How the physical-device path applies the time-zone information to the
UTC instant `moment.unix(timestamp).utc()`: a minute-based offset
(`utc.utcOffset(utcOffset)`), an IANA zone name (`utc.tz(timeZone)`), a
minute offset derived from seconds (`utc.utcOffset(timeZone / 60)`), or
no offset at all (the bare instant). -/
inductive OffsetResolution where
  | minuteOffset (minutes : ℚ)
  | zoneName (tz : JSValue)
  | secondsOffset (minutes : ℚ)
  | bare
deriving DecidableEq, Repr

/-- The ordered disambiguation cascade of `getDeviceTime` on a physical
device (general.js lines 140-152).  `Math.abs` of a non-numeric
`timeZone` is NaN, whose comparison with `12 * 60 * 60` is false, so the
`none` branch of the coercion falls through to the bare instant. -/
def resolveOffset (r : DeviceTimeReading) : OffsetResolution :=
  if |r.utcOffset| ≤ 12 * 60 then .minuteOffset r.utcOffset
  else if includesSlash r.timeZone then .zoneName r.timeZone
  else
    match jsToNumber r.timeZone with
    | some z => if |z| ≤ 12 * 60 * 60 then .secondsOffset (z / 60) else .bare
    | none => .bare

/-- A parsed moment on the simulated path: the value
`moment.utc(stdout, inputFormat)` when it `isValid()`, kept abstract (only
its `_tzm`-adjusted formatting is ever consumed, through a collaborator). -/
structure Moment where
  utcValue : ℤ
  tzm : ℚ
deriving DecidableEq, Repr

/-- The collaborators and device state `getDeviceTime` consumes, made
explicit: the real/simulated flag (`this.isRealDevice()`), the stdout of
the local `date` subprocess, the `moment.utc(·, inputFormat)` parser
(`none` models an invalid parse), the two `moment` formatters, and the
physical-device reading. -/
structure TimeEnv where
  isRealDevice : Bool
  simStdout : String
  parseSim : String → Option Moment
  formatSim : Moment → String → String
  formatReal : ℤ → OffsetResolution → String → String
  reading : DeviceTimeReading

/-- `getDeviceTime(format = MOMENT_FORMAT_ISO8601)` (general.js lines
115-153).  Simulated path: trim the subprocess stdout, return it verbatim
when parsing fails, otherwise format the parsed moment.  Physical path:
format the UTC instant under the offset the cascade resolves. -/
def getDeviceTime (E : TimeEnv) (format : String := MOMENT_FORMAT_ISO8601) : String :=
  if !E.isRealDevice then
    let stdout := jsTrim E.simStdout
    match E.parseSim stdout with
    | none => stdout
    | some parsedTimestamp => E.formatSim parsedTimestamp format
  else
    E.formatReal E.reading.timestamp (resolveOffset E.reading) format

/-- `mobileGetDeviceTime(format = MOMENT_FORMAT_ISO8601)` (general.js lines
162-164): plain delegation to `getDeviceTime`. -/
def mobileGetDeviceTime (E : TimeEnv) (format : String := MOMENT_FORMAT_ISO8601) : String :=
  getDeviceTime E format

/-- The rectangle `getViewportRect` returns. -/
structure ViewportRect where
  left : ℚ
  top : ℚ
  width : ℚ
  height : ℚ
deriving DecidableEq, Repr

/-- `getViewportRect()` (general.js lines 244-258) as a function of its
three collaborator-supplied values (`getDevicePixelRatio`,
`getStatusBarHeight`, `getWindowSize`): the status-bar height arrives in
logical pixels and is scaled and rounded (`Math.round`, which is
`⌊x + ½⌋`, Mathlib's `round`); the window size is scaled and the height
reduced by the scaled status-bar inset. -/
def getViewportRect (scale statusBarHeightRaw : ℚ) (windowSize : ℚ × ℚ) : ViewportRect :=
  let statusBarHeight : ℚ := (round (statusBarHeightRaw * scale) : ℤ)
  { left := 0
    top := statusBarHeight
    width := windowSize.1 * scale
    height := windowSize.2 * scale - statusBarHeight }

/-- The W3C rectangle `getWindowRect` returns. -/
structure WindowRect where
  width : ℚ
  height : ℚ
  x : ℚ
  y : ℚ
deriving DecidableEq, Repr

/-- `getWindowRect()` (general.js lines 170-178) as a function of the
`{width, height}` the `getWindowSize` collaborator returns. -/
def getWindowRect (getWindowSize : ℚ × ℚ) : WindowRect :=
  { width := getWindowSize.1, height := getWindowSize.2, x := 0, y := 0 }

/-- The parameter payloads of the two validated proxy commands. -/
inductive ProxyParams where
  | pressButton (name : String) (duration : JSValue)
  | siri (text : String)
deriving DecidableEq, Repr

/-- A proxied remote call: endpoint path, HTTP method and parameters. -/
structure ProxyCall where
  path : String
  method : String
  params : ProxyParams
deriving DecidableEq, Repr

/-- `mobilePressButton(name, durationSeconds)` (general.js lines 291-299):
an empty `name` is falsy and rejected first; a present non-number
`durationSeconds` is rejected next; otherwise the single proxy call is
issued.  The `Except` encoding makes an error mean that no proxy call
happened (fail-fast, no partial side effects). -/
def mobilePressButton (name : String) (durationSeconds : JSValue) : Except String ProxyCall :=
  if name = "" then .error "Button name is mandatory"
  else if !isNil durationSeconds && !isNumber durationSeconds then
    .error "durationSeconds should be a number"
  else .ok ⟨"/wda/pressButton", "POST", .pressButton name durationSeconds⟩

/-- `mobileSiriCommand(text)` (general.js lines 304-309): empty text is
falsy and rejected before the proxy call. -/
def mobileSiriCommand (text : String) : Except String ProxyCall :=
  if text = "" then .error "\"text\" argument is mandatory"
  else .ok ⟨"/wda/siri/activate", "POST", .siri text⟩

/-! ## General lemmas about the resolver -/

/-- `selectEndpoint` leaves the endpoint unset exactly when its argument is
present (`util.hasValue`) yet coerces to NaN. -/
theorem selectEndpoint_none_iff (t : JSValue) :
    selectEndpoint t = none ↔ hasValue t = true ∧ jsToNumber t = none := by
  unfold selectEndpoint
  by_cases h : hasValue t
  · cases hn : jsToNumber t with
    | none => simp [h, hn]
    | some q =>
      cases hp : parseFloatVal t with
      | none => simp [h, hn, hp]
      | some d => by_cases hd : 0 ≤ d <;> simp [h, hn, hp, hd]
  · have h0 : hasValue t = false := by simpa using h
    simp [h0]

/-- `selectEndpoint` picks the deactivate endpoint with the coerced
duration whenever the coercions succeed and the duration is nonnegative. -/
theorem selectEndpoint_deactivate (t : JSValue) (d : ℚ)
    (h1 : (jsToNumber t).isSome = true) (h2 : parseFloatVal t = some d)
    (h3 : 0 ≤ d) :
    selectEndpoint t = some (.deactivateApp, some d) := by
  have hv : hasValue t = true := by
    cases t <;> simp_all [hasValue, jsToNumber, parseFloatVal]
  unfold selectEndpoint
  simp [hv, h1, h2, h3]

/-! ## Claim theorems -/

/-- C1 (code-bug evidence): the fail-open policy the spec describes is
violated by the code at `{timeout: null}` — an absent candidate per the
claim, and per the function's own doc comment a "never come back" input —
and at `{timeout: "abc"}` — a non-numeric candidate: both raise the
invalid-argument error instead of selecting `/wda/homescreen`, because
`parseFloat(String(timeout)) / 1000` is NaN (resp. the raw non-numeric
value) and `selectEndpoint` then sets no endpoint.  A bare `null`
argument, by contrast, does select the home screen. -/
theorem background_failopen_violated :
    background (.objTimeout .null) = .error (.objTimeout .null) ∧
    background (.objTimeout (.str "abc")) = .error (.objTimeout (.str "abc")) ∧
    background .null = .ok (.homescreen, none) :=
  ⟨rfl, rfl, rfl⟩

/-- C2: whenever the resolved timeout candidate coerces to a number (its
`Number` coercion is not NaN) and its `parseFloat` coercion is a
nonnegative duration `d`, `background` selects `/wda/deactivateApp` with
`duration` exactly `d` and raises no error. -/
theorem background_nonneg_duration (seconds : JSValue) (d : ℚ)
    (h1 : (jsToNumber (candidate seconds)).isSome = true)
    (h2 : parseFloatVal (candidate seconds) = some d)
    (h3 : 0 ≤ d) :
    background seconds = .ok (.deactivateApp, some d) := by
  unfold background
  rw [selectEndpoint_deactivate _ d h1 h2 h3]

/-- C2 witness: `background(5)` selects `/wda/deactivateApp` with duration 5. -/
theorem background_nonneg_duration_witness :
    (jsToNumber (candidate (.num 5))).isSome = true ∧
    parseFloatVal (candidate (.num 5)) = some 5 ∧
    0 ≤ (5 : ℚ) ∧
    background (.num 5) = .ok (.deactivateApp, some 5) := by
  have hc : candidate (.num 5) = .num 5 := by
    simp [candidate, isNumber]
  refine ⟨by rw [hc]; rfl, by rw [hc]; rfl, by norm_num, ?_⟩
  exact background_nonneg_duration (.num 5) 5 (by rw [hc]; rfl) (by rw [hc]; rfl) (by norm_num)

/-- C3 counterexample: the "defensive" branch is reachable from the claim's
own input domain — the number `NaN` and an object with a non-numeric
`timeout` both make `background` raise the invalid-argument error. -/
theorem background_defensive_reachable :
    background .nan = .error .nan ∧
    background (.objTimeout (.str "x")) = .error (.objTimeout (.str "x")) :=
  ⟨rfl, rfl⟩

/-- C3 amended: the invalid-argument branch of `background` is reachable,
and it fires exactly when the resolved candidate is present (neither
`null` nor `undefined`) yet coerces to NaN; for every other input one of
the two endpoints is selected without error. -/
theorem background_error_iff (seconds : JSValue) :
    background seconds = .error seconds ↔
      hasValue (candidate seconds) = true ∧ jsToNumber (candidate seconds) = none := by
  unfold background
  rw [← selectEndpoint_none_iff]
  cases h : selectEndpoint (candidate seconds) <;> simp [h]

/-- C4: on a physical device `getDeviceTime` formats the UTC instant under
the offset resolved by the ordered cascade: a `utcOffset` of magnitude at
most 12·60 is applied as a minute offset; otherwise a `timeZone`
containing `/` is applied as a zone identifier; otherwise a numeric
`timeZone` of magnitude at most 12·60·60 is applied as the minute offset
`timeZone / 60`; otherwise (too large or non-numeric) the bare UTC
instant is formatted.  In particular `timeZone = "Europe/Berlin"` with
`utcOffset = 900` takes the zone-identifier path. -/
theorem getDeviceTime_offset_cascade :
    (∀ (E : TimeEnv) (fmt : String), E.isRealDevice = true →
        getDeviceTime E fmt = E.formatReal E.reading.timestamp (resolveOffset E.reading) fmt) ∧
    (∀ r : DeviceTimeReading, |r.utcOffset| ≤ 12 * 60 →
        resolveOffset r = .minuteOffset r.utcOffset) ∧
    (∀ r : DeviceTimeReading, ¬|r.utcOffset| ≤ 12 * 60 → includesSlash r.timeZone = true →
        resolveOffset r = .zoneName r.timeZone) ∧
    (∀ (r : DeviceTimeReading) (z : ℚ), ¬|r.utcOffset| ≤ 12 * 60 →
        includesSlash r.timeZone = false → jsToNumber r.timeZone = some z →
        |z| ≤ 12 * 60 * 60 → resolveOffset r = .secondsOffset (z / 60)) ∧
    (∀ (r : DeviceTimeReading) (z : ℚ), ¬|r.utcOffset| ≤ 12 * 60 →
        includesSlash r.timeZone = false → jsToNumber r.timeZone = some z →
        ¬|z| ≤ 12 * 60 * 60 → resolveOffset r = .bare) ∧
    (∀ r : DeviceTimeReading, ¬|r.utcOffset| ≤ 12 * 60 →
        includesSlash r.timeZone = false → jsToNumber r.timeZone = none →
        resolveOffset r = .bare) ∧
    resolveOffset ⟨1700000000, 900, .str "Europe/Berlin"⟩ = .zoneName (.str "Europe/Berlin") := by
  refine ⟨fun E fmt h => ?_, fun r h1 => ?_, fun r h1 h2 => ?_, fun r z h1 h2 h3 h4 => ?_,
    fun r z h1 h2 h3 h4 => ?_, fun r h1 h2 h3 => ?_, ?_⟩
  · unfold getDeviceTime
    simp [h]
  · simp [resolveOffset, h1]
  · simp [resolveOffset, h1, h2]
  · simp [resolveOffset, h1, h2, h3, h4]
  · simp [resolveOffset, h1, h2, h3, h4]
  · simp [resolveOffset, h1, h2, h3]
  · have h : includesSlash (.str "Europe/Berlin") = true := by rfl
    simp only [resolveOffset, h]
    norm_num

/-- C4 witness: a reading with `utcOffset = 120` resolves to the
minute-offset path with offset 120. -/
theorem getDeviceTime_offset_cascade_witness :
    |(120 : ℚ)| ≤ 12 * 60 ∧
    resolveOffset ⟨1700000000, 120, .num 3600⟩ = .minuteOffset 120 :=
  ⟨by norm_num, getDeviceTime_offset_cascade.2.1 ⟨1700000000, 120, .num 3600⟩ (by norm_num)⟩

/-- C5: `getViewportRect` is exactly
`{left: 0, top: round(sbh·scale), width: w·scale, height: h·scale − round(sbh·scale)}`,
and at scale 2, status-bar height 20, window 400×800 it yields
`{left: 0, top: 40, width: 800, height: 1560}`. -/
theorem getViewportRect_formula :
    (∀ (scale sbh w h : ℚ),
        getViewportRect scale sbh (w, h) =
          ⟨0, ((round (sbh * scale) : ℤ) : ℚ), w * scale,
            h * scale - ((round (sbh * scale) : ℤ) : ℚ)⟩) ∧
    getViewportRect 2 20 (400, 800) = ⟨0, 40, 800, 1560⟩ := by
  constructor
  · intro scale sbh w h
    rfl
  · simp only [getViewportRect, ViewportRect.mk.injEq]
    norm_num [round_eq]

/-- C6: on the simulated path, whenever the moment parser rejects the
trimmed subprocess output, `getDeviceTime` returns that trimmed raw
output unchanged (and, being total, raises nothing for this reason). -/
theorem getDeviceTime_sim_unparsable (E : TimeEnv) (fmt : String)
    (hr : E.isRealDevice = false)
    (hp : E.parseSim (jsTrim E.simStdout) = none) :
    getDeviceTime E fmt = jsTrim E.simStdout := by
  unfold getDeviceTime
  rw [hr]
  simp [hp]

/-- A concrete simulated-device environment whose parser always fails. -/
def simEnvUnparsable : TimeEnv :=
  { isRealDevice := false
    simStdout := " not a date "
    parseSim := fun _ => none
    formatSim := fun _ _ => ""
    formatReal := fun _ _ _ => ""
    reading := ⟨0, 0, .null⟩ }

/-- C6 witness: an unparsable simulator output is returned trimmed and verbatim. -/
theorem getDeviceTime_sim_unparsable_witness :
    simEnvUnparsable.isRealDevice = false ∧
    simEnvUnparsable.parseSim (jsTrim simEnvUnparsable.simStdout) = none ∧
    getDeviceTime simEnvUnparsable "YYYY" = "not a date" := by
  refine ⟨rfl, rfl, ?_⟩
  have h := getDeviceTime_sim_unparsable simEnvUnparsable "YYYY" rfl rfl
  rw [h]
  rfl

/-- C7: `mobilePressButton` rejects an empty button name, and a present
non-number duration, with an invalid-argument error, and
`mobileSiriCommand` rejects empty text; in the `Except` encoding an error
means the proxy call was never issued (fail-fast, no partial effects). -/
theorem pressButton_siri_failfast :
    (∀ d : JSValue, mobilePressButton "" d = .error "Button name is mandatory") ∧
    (∀ (buttonName : String) (d : JSValue), buttonName ≠ "" → isNil d = false →
        isNumber d = false →
        mobilePressButton buttonName d = .error "durationSeconds should be a number") ∧
    mobileSiriCommand "" = .error "\"text\" argument is mandatory" := by
  refine ⟨fun d => rfl, fun buttonName d hn hnil hnum => ?_, rfl⟩
  unfold mobilePressButton
  rw [if_neg hn]
  simp [hnil, hnum]

/-- C7 witness: a non-empty name with a string duration is rejected before
any proxy call. -/
theorem pressButton_siri_failfast_witness :
    ("home" : String) ≠ "" ∧ isNil (.str "2") = false ∧ isNumber (.str "2") = false ∧
    mobilePressButton "home" (.str "2") = .error "durationSeconds should be a number" :=
  ⟨by decide, rfl, rfl, pressButton_siri_failfast.2.1 "home" (.str "2") (by decide) rfl rfl⟩

/-- C8: with the window-size collaborator returning the same value on the
first and second call, two successive `getWindowRect` calls agree, and
the common result is `{width, height, x: 0, y: 0}`. -/
theorem getWindowRect_idempotent (sizes : ℕ → ℚ × ℚ)
    (h : sizes 1 = sizes 0) :
    getWindowRect (sizes 0) = getWindowRect (sizes 1) ∧
    getWindowRect (sizes 0) = ⟨(sizes 0).1, (sizes 0).2, 0, 0⟩ := by
  rw [h]
  exact ⟨rfl, rfl⟩

/-- C8 witness: the constant 400×800 collaborator yields identical
`{400, 800, 0, 0}` rectangles on both calls. -/
theorem getWindowRect_idempotent_witness :
    (fun _ : ℕ => ((400 : ℚ), (800 : ℚ))) 1 = (fun _ : ℕ => ((400 : ℚ), (800 : ℚ))) 0 ∧
    getWindowRect ((fun _ : ℕ => ((400 : ℚ), (800 : ℚ))) 0) = ⟨400, 800, 0, 0⟩ :=
  ⟨rfl, (getWindowRect_idempotent (fun _ => (400, 800)) rfl).2⟩

/-- C9: an object `timeout` is milliseconds: a coercible field value is
divided by 1000 before endpoint selection, so `background({timeout: 5000})`
selects `/wda/deactivateApp` with duration 5 while `background(5000)`
selects it with duration 5000. -/
theorem background_timeout_milliseconds :
    (∀ q : ℚ, 0 ≤ q → background (.objTimeout (.num q)) = .ok (.deactivateApp, some (q / 1000))) ∧
    background (.objTimeout (.num 5000)) = .ok (.deactivateApp, some 5) ∧
    background (.num 5000) = .ok (.deactivateApp, some 5000) := by
  refine ⟨fun q hq => ?_, ?_, ?_⟩
  · have hc : candidate (.objTimeout (.num q)) = .num (q / 1000) := by
      simp [candidate, truthy, isNumber, hasTimeoutKey, timeoutField, jsToNumber, parseFloatVal]
    unfold background
    rw [hc, selectEndpoint_deactivate (.num (q / 1000)) (q / 1000) rfl rfl
      (div_nonneg hq (by norm_num))]
  · simp only [background, candidate, selectEndpoint, truthy, isNumber, hasTimeoutKey, hasValue,
      timeoutField, jsToNumber, parseFloatVal]
    norm_num
  · simp only [background, candidate, selectEndpoint, truthy, isNumber, hasTimeoutKey, hasValue,
      jsToNumber, parseFloatVal]
    norm_num

/-- C9 witness: `background({timeout: 7})` selects `/wda/deactivateApp`
with duration 7/1000. -/
theorem background_timeout_milliseconds_witness :
    0 ≤ (7 : ℚ) ∧
    background (.objTimeout (.num 7)) = .ok (.deactivateApp, some (7 / 1000)) :=
  ⟨by norm_num, background_timeout_milliseconds.1 7 (by norm_num)⟩

/-- C10: `mobileGetDeviceTime` is extensionally `getDeviceTime`, at every
explicit format and at the shared omitted-argument default, which is the
ISO-8601 pattern. -/
theorem mobileGetDeviceTime_equiv :
    (∀ (E : TimeEnv) (fmt : String), mobileGetDeviceTime E fmt = getDeviceTime E fmt) ∧
    (∀ E : TimeEnv, (mobileGetDeviceTime E : String) = (getDeviceTime E : String)) ∧
    MOMENT_FORMAT_ISO8601 = "YYYY-MM-DDTHH:mm:ssZ" :=
  ⟨fun _ _ => rfl, fun _ => rfl, rfl⟩

end XCUITest
